import Mathlib

/-!
# Verification of the GitHub profile statistics generator (`today.py`)

Shallow embedding of the statistics-aggregation and SVG-rendering pipeline of
`today.py`.  Network transport is abstracted as oracle functions passed in as
arguments (a page fetcher for the repository listing, a URL fetcher for the
per-repository language byte counts); everything else is translated directly
from the source.  Python floats are modelled as exact rationals (`ℚ`), Python
exceptions as `Except`/`Option` values.
-/

namespace Today

/-! ## `html.escape`

Python's `html.escape(s)` (with `quote=True`) replaces `&` first and then
`<`, `>`, `"`, `'`; since the replacement of `&` happens before the others,
the result is the same as the independent character-by-character map below. -/

/-- Per-character replacement of Python's `html.escape`. -/
def escChar (c : Char) : String :=
  if c = '&' then "&amp;"
  else if c = '<' then "&lt;"
  else if c = '>' then "&gt;"
  else if c = '"' then "&quot;"
  else if c = '\'' then "&#x27;"
  else String.mk [c]

/-- Python's `html.escape(s, quote=True)` (import `html`, used at every text
insertion site of `generate_svg`): each character is replaced by `escChar`
and the pieces are concatenated. -/
def htmlEscape (s : String) : String :=
  String.mk (s.data.flatMap (fun c => (escChar c).data))

/-! ## Data model

`RepoEntry` is one element of the JSON array returned by the repository
listing endpoint (the fields `today.py` actually reads).  `UserDataJson` is
the profile payload; a field read with plain indexing (`user_data['followers']`)
raises `KeyError` when absent, which we model with `Option`, while the
display name read with `user_data.get('name', username)` distinguishes an
absent key (default applies) from a key present with JSON `null` (Python
`None`), which we model with `JsonStr`. -/

/-- A string-valued JSON field that can be absent, `null`, or a string. -/
inductive JsonStr where
  | absent : JsonStr
  | null : JsonStr
  | str : String → JsonStr
deriving DecidableEq

/-- One repository object from the listing endpoint. -/
structure RepoEntry where
  name : String
  description : Option String
  stargazers_count : Nat
  language : Option String
  fork : Bool
  languages_url : String
deriving DecidableEq

/-- The profile payload (`fetch_user_data` result), fields read by
`calculate_stats`. -/
structure UserDataJson where
  name : JsonStr
  bio : JsonStr
  followers : Option Nat
  following : Option Nat
  public_repos : Option Nat
deriving DecidableEq

/-- One entry of `top_repos_data` built in `calculate_stats` (all defaults
already applied). -/
structure RepoData where
  name : String
  description : String
  stars : Nat
  language : String
deriving DecidableEq

/-- The `stats` dictionary produced by `calculate_stats`; sole input of
`generate_svg` and content of the cache file.  Percentages are modelled as
exact rationals. -/
structure Stats where
  username : String
  name : Option String
  bio : Option String
  followers : Nat
  following : Nat
  public_repos : Nat
  total_stars : Nat
  language_percentages : List (String × ℚ)
  top_repos : List RepoData
  updated_at : String
deriving DecidableEq

/-! ## `GitHubStats.fetch_repos`

The `while True` pagination loop.  The page oracle maps a `(per_page, page)`
query to the JSON array of that page.  The loop has no bound in the source,
so the embedding carries fuel; `none` models non-termination.  Besides the
accumulated repositories the embedding also records the issued page requests
in order. -/

/-- Loop body of `fetch_repos`: request page `page`, stop on an empty page,
otherwise extend the accumulator and continue with `page + 1`. -/
def fetchReposGo (fetchPage : Nat → Nat → List RepoEntry) :
    Nat → Nat → List RepoEntry → List (Nat × Nat) →
    Option (List RepoEntry × List (Nat × Nat))
  | 0, _, _, _ => none
  | fuel + 1, page, repos, reqs =>
    let data := fetchPage 100 page
    let reqs := reqs ++ [(100, page)]
    if data.isEmpty then some (repos, reqs)
    else fetchReposGo fetchPage fuel (page + 1) (repos ++ data) reqs

/-- `GitHubStats.fetch_repos`: pages of size 100 starting at page 1 until an
empty page is returned. -/
def fetch_repos (fetchPage : Nat → Nat → List RepoEntry) (fuel : Nat) :
    Option (List RepoEntry × List (Nat × Nat)) :=
  fetchReposGo fetchPage fuel 1 [] []

/-! ## `GitHubStats.fetch_language_stats` -/

/-- `language_bytes[lang] = language_bytes.get(lang, 0) + bytes_count` on an
insertion-ordered dictionary (Python dicts preserve insertion order). -/
def dictAdd (m : List (String × Nat)) (k : String) (v : Nat) :
    List (String × Nat) :=
  if m.any (fun p => p.1 = k) then
    m.map (fun p => if p.1 = k then (p.1, p.2 + v) else p)
  else m ++ [(k, v)]

/-- Loop of `fetch_language_stats`: skip forks; request each remaining
repository's `languages_url` (the oracle returns `none` on any request or
status failure, which the `try`/`except` turns into a warning and a skipped
contribution); accumulate byte counts.  Also records the requested URLs. -/
def fetchLanguageStatsGo (langFetch : String → Option (List (String × Nat))) :
    List RepoEntry → List (String × Nat) → List String →
    List (String × Nat) × List String
  | [], acc, urls => (acc, urls)
  | r :: rest, acc, urls =>
    if r.fork then fetchLanguageStatsGo langFetch rest acc urls
    else
      let urls := urls ++ [r.languages_url]
      match langFetch r.languages_url with
      | none => fetchLanguageStatsGo langFetch rest acc urls
      | some langData =>
        fetchLanguageStatsGo langFetch rest
          (langData.foldl (fun m p => dictAdd m p.1 p.2) acc) urls

/-- `GitHubStats.fetch_language_stats`: returns the accumulated
`language_bytes` dictionary together with the list of requested language
endpoints. -/
def fetch_language_stats (langFetch : String → Option (List (String × Nat)))
    (repos : List RepoEntry) : List (String × Nat) × List String :=
  fetchLanguageStatsGo langFetch repos [] []

/-! ## `GitHubStats.calculate_stats` -/

/-- `sum(r['stargazers_count'] for r in owned_repos)` where
`owned_repos = [r for r in repos if not r['fork']]`. -/
def totalStars (repos : List RepoEntry) : Nat :=
  (((repos.filter (fun r => !r.fork)).map
      (fun r => r.stargazers_count))).sum

/-- The comparison realising `key=lambda x: x['stargazers_count'],
reverse=True`: `a` may come before `b` iff `a` has at least as many stars. -/
def repoLe (a b : RepoEntry) : Bool :=
  decide (b.stargazers_count ≤ a.stargazers_count)

/-- `sorted(owned_repos, key=lambda x: x['stargazers_count'], reverse=True)[:3]`.
Python's `sorted` is a stable sort; with `reverse=True` equal keys keep their
original relative order, which is exactly `List.mergeSort` with `repoLe`. -/
def top_repos_of (repos : List RepoEntry) : List RepoEntry :=
  ((repos.filter (fun r => !r.fork)).mergeSort repoLe).take 3

/-- `r['description'] or 'No description'` (Python `or`: `None` and the empty
string both fall back). -/
def descOrDefault (d : Option String) : String :=
  match d with
  | none => "No description"
  | some s => if s = "" then "No description" else s

/-- `r['language'] or 'N/A'`. -/
def langOrDefault (l : Option String) : String :=
  match l with
  | none => "N/A"
  | some s => if s = "" then "N/A" else s

/-- `total_bytes = sum(language_bytes.values())`. -/
def totalBytesOf (lb : List (String × Nat)) : Nat :=
  (lb.map (fun p => p.2)).sum

/-- The comparison realising `key=lambda x: x[1], reverse=True` on the
language-byte items. -/
def bytesLe (a b : String × Nat) : Bool :=
  decide (b.2 ≤ a.2)

/-- Lines 90–95 of `today.py`: `sorted(language_bytes.items(),
key=lambda x: x[1], reverse=True)[:5]` mapped to
`(bytes_count / total_bytes) * 100`, guarded by `if total_bytes > 0`
(otherwise the list stays empty). -/
def languagePercentages (lb : List (String × Nat)) : List (String × ℚ) :=
  let total := totalBytesOf lb
  if 0 < total then
    ((lb.mergeSort bytesLe).take 5).map
      (fun p => (p.1, (p.2 : ℚ) / (total : ℚ) * 100))
  else []

/-- Errors of the aggregation.  A required field missing from an otherwise
successful payload raises `KeyError` in `calculate_stats`
(`user_data['followers']` etc.); this is the spec's `DataShapeError`. -/
inductive CalcError where
  | dataShape : String → CalcError
deriving DecidableEq

/-- `GitHubStats.calculate_stats`, with the already-fetched profile payload,
repository list and language oracle as inputs and the timestamp (`now`)
passed in.  The `stats` dictionary literal evaluates `name`/`bio` with `.get`
(never failing) and then `followers`, `following`, `public_repos` with plain
indexing, in that order; the first absent one raises. -/
def calculate_stats (username : String) (user_data : UserDataJson)
    (repos : List RepoEntry)
    (langFetch : String → Option (List (String × Nat)))
    (now : String) : Except CalcError Stats :=
  let top_repos_data := (top_repos_of repos).map
    (fun r => { name := r.name, description := descOrDefault r.description,
                stars := r.stargazers_count,
                language := langOrDefault r.language : RepoData })
  let language_bytes := (fetch_language_stats langFetch repos).1
  let nameVal : Option String :=
    match user_data.name with
    | .absent => some username
    | .null => none
    | .str s => some s
  let bioVal : Option String :=
    match user_data.bio with
    | .absent => some ""
    | .null => none
    | .str s => some s
  match user_data.followers with
  | none => .error (.dataShape "followers")
  | some fw =>
    match user_data.following with
    | none => .error (.dataShape "following")
    | some fg =>
      match user_data.public_repos with
      | none => .error (.dataShape "public_repos")
      | some pr =>
        .ok { username := username, name := nameVal, bio := bioVal,
              followers := fw, following := fg, public_repos := pr,
              total_stars := totalStars repos,
              language_percentages := languagePercentages language_bytes,
              top_repos := top_repos_data, updated_at := now }

/-! ## `generate_svg`

The renderer is a pure string builder.  Python layout integers stay `Nat`
(all intermediate coordinates are positive), the two float values
(`bar_width` and the `:.1f`-formatted percentage) are rationals rendered
with the deterministic formatters below. -/

/-- Theme selector of `generate_svg`. -/
inductive Theme where
  | light : Theme
  | dark : Theme
deriving DecidableEq

/-- The closed set of colors a theme binds (lines 117–135). -/
structure ThemeColors where
  bg : String
  text : String
  key : String
  value : String
  border : String
  ascii : String
  comment : String
  chart : List String
deriving DecidableEq

/-- The two Solarized palettes of `generate_svg`. -/
def themeColors : Theme → ThemeColors
  | .light =>
    { bg := "#fdf6e3", text := "#657b83", key := "#cb4b16",
      value := "#268bd2", border := "#93a1a1", ascii := "#657b83",
      comment := "#93a1a1",
      chart := ["#268bd2", "#859900", "#b58900", "#dc322f", "#6c71c4"] }
  | .dark =>
    { bg := "#002b36", text := "#839496", key := "#cb4b16",
      value := "#268bd2", border := "#586e75", ascii := "#839496",
      comment := "#586e75",
      chart := ["#268bd2", "#859900", "#b58900", "#dc322f", "#6c71c4"] }

/-- `display_name = stats['name'] if stats['name'] else stats['username']`
(Python truthiness: `None` and the empty string fall back to the handle). -/
def displayName (stats : Stats) : String :=
  match stats.name with
  | none => stats.username
  | some s => if s = "" then stats.username else s

/-- Python truthiness of the `custom_color` slot (`None` and `''` falsy). -/
def pyTruthy (v : Option String) : Bool :=
  match v with
  | none => false
  | some s => decide (s ≠ "")

/-- `'x' * n` for a single character. -/
def repChar (n : Nat) (c : Char) : String :=
  String.mk (List.replicate n c)

/-- The `<text x=.. y=.. class=..>..</text>` f-string shared by most lines. -/
def textTag (x y : Nat) (cls content : String) : String :=
  "<text x=\"" ++ toString x ++ "\" y=\"" ++ toString y ++ "\" class=\"" ++
    cls ++ "\">" ++ content ++ "</text>"

/-- `LEFT COLUMN DATA` (lines 155–179): `(key, value, custom_color)` rows. -/
def left_column_data (username display_name text_color comment_color : String) :
    List (String × String × Option String) :=
  [("", username ++ "@github", some text_color),
   ("separator", repChar 50 '─', some comment_color),
   ("Name", display_name, none),
   ("Role", "Senior Security Engineer", none),
   ("TimeZone", "Pacific Standard Time", none),
   ("Certs", "CCSP | CISSP (ISC2 #521659)", none),
   ("Status", "Open to opportunities", none),
   ("divider", "", none),
   ("Interests", "", none),
   ("", "  • AI/LLM Security &", none),
   ("", "    Safety Engineering", none),
   ("", "  • Security Automation &", none),
   ("", "    DevSecOps", none),
   ("", "  • Cloud-Native Security", none),
   ("", "    Architecture", none),
   ("", "  • DevSecOps & Security", none),
   ("", "    Architecture", none),
   ("", "  • Cloud Security", none),
   ("", "    (AWS, Azure)", none),
   ("", "  • Threat Modeling &", none),
   ("", "    Risk Assessment", none),
   ("", "  • Incident Response &", none),
   ("", "    Investigation", none)]

/-- `RIGHT COLUMN DATA` (lines 182–204). -/
def right_column_data (text_color : String) :
    List (String × String × Option String) :=
  [("", "", some text_color),
   ("", "", some text_color),
   ("", "", some text_color),
   ("", "", some text_color),
   ("", "", some text_color),
   ("", "", some text_color),
   ("", "", some text_color),
   ("", "", some text_color),
   ("", "", some text_color),
   ("", "  • Container Security &", none),
   ("", "    Orchestration", none),
   ("", "  • Vulnerability Management", none),
   ("", "  • Application Security", none),
   ("", "  • Compliance & Standards", none),
   ("", "    Development", none),
   ("", "  • IAM & Identity Management", none),
   ("", "  • SIEM & Log Analysis", none),
   ("", "  • Security Automation", none),
   ("", "    & CI/CD", none),
   ("", "  • Containers & Kubernetes", none),
   ("", "  • Infrastructure as Code", none)]

/-- Left-column rendering loop (lines 207–223), with `y_start = 100`,
`line_height = 24`.  `i` is the `enumerate` index. -/
def leftLinesFrom (x : Nat) : Nat →
    List (String × String × Option String) → List String
  | _, [] => []
  | i, (key, value, cc) :: rest =>
    let y := 100 + i * 24
    (if key = "divider" then [textTag x y "comment" (repChar 40 '─')]
     else if key = "separator" then [textTag x y "comment" (htmlEscape value)]
     else if pyTruthy cc then [textTag x y "comment" (htmlEscape key)]
     else if key = "" then [textTag x y "value" (htmlEscape value)]
     else
       [textTag x y "key" (htmlEscape key ++ ":")] ++
         (if value = "" then []
          else [textTag (x + 200) y "value" (htmlEscape value)])) ++
    leftLinesFrom x (i + 1) rest

/-- Right-column rendering loop (lines 226–244): as the left one but with
empty placeholders suppressed and the value column at `x + 120`. -/
def rightLinesFrom (x : Nat) : Nat →
    List (String × String × Option String) → List String
  | _, [] => []
  | i, (key, value, cc) :: rest =>
    let y := 100 + i * 24
    (if key = "divider" then [textTag x y "comment" (repChar 40 '─')]
     else if key = "separator" then
       (if value = "" then [] else [textTag x y "comment" (htmlEscape value)])
     else if pyTruthy cc then
       (if key = "" then [] else [textTag x y "comment" (htmlEscape key)])
     else if key = "" then
       (if value = "" then [] else [textTag x y "value" (htmlEscape value)])
     else
       [textTag x y "key" (htmlEscape key ++ ":")] ++
         (if value = "" then []
          else [textTag (x + 120) y "value" (htmlEscape value)])) ++
    rightLinesFrom x (i + 1) rest

/-- Deterministic model of Python's `f'{percentage:.1f}'` (one decimal,
rounding half up; every claim is insensitive to the tie-breaking mode of
the float rounding). -/
def fmtPct (q : ℚ) : String :=
  let n : ℤ := ⌊q * 10 + 1 / 2⌋
  toString (n / 10) ++ "." ++ toString (n % 10)

/-- Deterministic model of Python's `f'{bar_width}'` float rendering (the
exact digit string is irrelevant to every claim; only determinism and the
functional dependence on the value matter). -/
def fmtFloat (q : ℚ) : String :=
  toString q

/-- The boxed section header shared by the language chart and the project
highlights (`╭──╮ │ title │ ├──┤`). -/
def boxHeaderLines (y : Nat) (title : String) : List String :=
  [textTag 50 y "comment" ("╭" ++ repChar 82 '─' ++ "╮"),
   textTag 50 (y + 20) "comment" "│",
   textTag 60 (y + 20) "key" title,
   textTag 830 (y + 20) "comment" "│",
   textTag 50 (y + 35) "comment" ("├" ++ repChar 82 '─' ++ "┤")]

/-- One bar of the language chart (loop body, lines 269–281):
`bar_height = 20`, spacing 10, `max_bar_width = 400`,
`bar_width = percentage / 100 * 400`, color cycling through the palette. -/
def barLines (bg : String) (chartColors : List String) (chartStartY i : Nat)
    (lang : String) (pct : ℚ) : List String :=
  let barY := chartStartY + i * (20 + 10)
  let barWidth := pct / 100 * 400
  let color := chartColors.getD (i % chartColors.length) ""
  [textTag 50 (barY + 14) "comment" "│",
   "<rect x=\"70\" y=\"" ++ toString barY ++ "\" width=\"" ++
     fmtFloat barWidth ++ "\" height=\"20\" fill=\"" ++ color ++
     "\" rx=\"3\"/>",
   "<text x=\"80\" y=\"" ++ toString (barY + 14) ++
     "\" class=\"header\" style=\"font-size: 12px; fill: " ++ bg ++ "\">" ++
     htmlEscape lang ++ "</text>",
   "<text x=\"" ++ toString (400 + 80) ++ "\" y=\"" ++ toString (barY + 14) ++
     "\" class=\"value\" style=\"font-size: 12px\">" ++ fmtPct pct ++
     "%</text>",
   textTag 830 (barY + 14) "comment" "│"]

/-- The `for i, (lang, percentage) in enumerate(...)` loop of the chart. -/
def barsFrom (bg : String) (chartColors : List String) (chartStartY : Nat) :
    Nat → List (String × ℚ) → List String
  | _, [] => []
  | i, (lang, pct) :: rest =>
    barLines bg chartColors chartStartY i lang pct ++
      barsFrom bg chartColors chartStartY (i + 1) rest

/-- Language-chart section (lines 252–288): returns the rendered lines and
the final `chart_end_y`.  Empty distribution renders nothing and leaves the
running y-offset unchanged. -/
def chartSection (bg : String) (chartColors : List String)
    (columnEndY : Nat) (langs : List (String × ℚ)) : List String × Nat :=
  if langs.isEmpty then ([], columnEndY)
  else
    let chartY := columnEndY + 40
    let chartStartY := chartY + 55
    let chartEndY := chartStartY + (langs.length - 1) * (20 + 10) + 20 + 10
    (boxHeaderLines chartY "Language Distribution" ++
       barsFrom bg chartColors chartStartY 0 langs ++
       [textTag 50 (chartEndY + 15) "comment" ("╰" ++ repChar 82 '─' ++ "╯")],
     chartEndY + 25)

/-- One project entry (loop body, lines 304–331): name with star annotation
(empty when `stars == 0`), description truncated at 70 characters with an
ellipsis, language tag, and a divider before every entry but the first. -/
def projEntryLines (projY i : Nat) (repo : RepoData) : List String :=
  let yOff := projY + i * 65
  let starsText :=
    if 0 < repo.stars then "★ " ++ toString repo.stars else ""
  let desc :=
    if 70 < repo.description.length then repo.description.take 70 ++ "..."
    else repo.description
  (if 0 < i then
     [textTag 50 (yOff - 10) "comment" ("├" ++ repChar 82 '─' ++ "┤")]
   else []) ++
  [textTag 50 yOff "comment" "│",
   "<text x=\"60\" y=\"" ++ toString yOff ++
     "\" class=\"value\" style=\"font-weight: 600\">" ++
     htmlEscape repo.name ++ " <tspan class=\"comment\">" ++ starsText ++
     "</tspan></text>",
   textTag 830 yOff "comment" "│",
   textTag 50 (yOff + 20) "comment" "│",
   "<text x=\"60\" y=\"" ++ toString (yOff + 20) ++
     "\" class=\"comment\" style=\"font-size: 13px\">" ++ htmlEscape desc ++
     "</text>",
   textTag 830 (yOff + 20) "comment" "│",
   textTag 50 (yOff + 38) "comment" "│",
   "<text x=\"60\" y=\"" ++ toString (yOff + 38) ++
     "\" class=\"key\" style=\"font-size: 11px\">" ++
     htmlEscape repo.language ++ "</text>",
   textTag 830 (yOff + 38) "comment" "│"]

/-- The project loop (the `if i >= 3: break` guard is the `take 3` applied
by `projSection`). -/
def projsFrom (projY : Nat) : Nat → List RepoData → List String
  | _, [] => []
  | i, r :: rest => projEntryLines projY i r ++ projsFrom projY (i + 1) rest

/-- Project-highlights section (lines 291–337): returns the rendered lines
and the final `project_end_y`. -/
def projSection (chartEndY : Nat) (topRepos : List RepoData) :
    List String × Nat :=
  if topRepos.isEmpty then ([], chartEndY)
  else
    let highlightsY := chartEndY + 40
    let projY := highlightsY + 55
    let t3 := topRepos.take 3
    let projectEndY := projY + (t3.length - 1) * 65 + 50
    (boxHeaderLines highlightsY "Project Highlights" ++
       projsFrom projY 0 t3 ++
       [textTag 50 (projectEndY + 15) "comment"
         ("╰" ++ repChar 82 '─' ++ "╯")],
     projectEndY + 25)

/-- The part of the SVG f-string (lines 343–399) preceding the escaped
display name of the title line: the opening tag, the style block, the
background rectangles and the title prefix up to `class="header">`. -/
def svgDocPre (c : ThemeColors) (totalHeight : Nat) : String :=
  "<svg width=\"900\" height=\"" ++ toString totalHeight ++
    "\" xmlns=\"http://www.w3.org/2000/svg\">\n" ++
  "    <style>\n" ++
  "        text \x7b\n" ++
  "            font-family: \x27Consolas\x27, \x27Monaco\x27, \x27Courier New\x27, monospace;\n" ++
  "            font-size: 16px;\n" ++
  "        \x7d\n" ++
  "        .ascii \x7b\n" ++
  "            fill: " ++ c.ascii ++ ";\n" ++
  "            font-size: 14px;\n" ++
  "            white-space: pre;\n" ++
  "        \x7d\n" ++
  "        .key \x7b\n" ++
  "            fill: " ++ c.key ++ ";\n" ++
  "            font-weight: 600;\n" ++
  "        \x7d\n" ++
  "        .value \x7b\n" ++
  "            fill: " ++ c.value ++ ";\n" ++
  "        \x7d\n" ++
  "        .comment \x7b\n" ++
  "            fill: " ++ c.comment ++ ";\n" ++
  "        \x7d\n" ++
  "        .header \x7b\n" ++
  "            fill: " ++ c.text ++ ";\n" ++
  "            font-weight: 700;\n" ++
  "            font-size: 18px;\n" ++
  "        \x7d\n" ++
  "        .footer \x7b\n" ++
  "            fill: " ++ c.comment ++ ";\n" ++
  "            font-size: 12px;\n" ++
  "        \x7d\n" ++
  "    </style>\n\n" ++
  "    <!-- Background -->\n" ++
  "    <rect width=\"900\" height=\"" ++ toString totalHeight ++
    "\" fill=\"" ++ c.bg ++ "\" rx=\"10\"/>\n" ++
  "    <rect width=\"880\" height=\"" ++ toString (totalHeight - 20) ++
    "\" x=\"10\" y=\"10\" fill=\"" ++ c.bg ++ "\" stroke=\"" ++ c.border ++
    "\" stroke-width=\"2\" rx=\"8\"/>\n\n" ++
  "    <!-- Title -->\n" ++
  "    <text x=\"50\" y=\"60\" class=\"header\">"

/-- The part of the SVG f-string following the title line: the info,
chart, highlights and footer sections. -/
def svgDocSuf (footerY : Nat)
    (infoSvg chartSvg projSvg updatedEsc : String) : String :=
  "\n\n" ++
  "    <!-- Info Section -->\n" ++
  "    <g>\n        " ++ infoSvg ++ "\n    </g>\n\n" ++
  "    <!-- Language Chart -->\n" ++
  "    <g>\n        " ++ chartSvg ++ "\n    </g>\n\n" ++
  "    <!-- Project Highlights -->\n" ++
  "    <g>\n        " ++ projSvg ++ "\n    </g>\n\n" ++
  "    <!-- Footer -->\n" ++
  "    <text x=\"50\" y=\"" ++ toString footerY ++
    "\" class=\"footer\">Last updated: " ++ updatedEsc ++ "</text>\n" ++
  "</svg>"

/-- The final SVG f-string (lines 343–399), taking the already-escaped
display name and timestamp exactly as the template's insertion sites
produce them; grouped around the title insertion site
(`{html.escape(display_name)}'s GitHub Profile`), which keeps the
surrounding text byte-for-byte that of the source template. -/
def svgDoc (c : ThemeColors) (totalHeight footerY : Nat)
    (displayNameEsc infoSvg chartSvg projSvg updatedEsc : String) : String :=
  svgDocPre c totalHeight ++
    (displayNameEsc ++
      ("\x27s GitHub Profile</text>" ++
        svgDocSuf footerY infoSvg chartSvg projSvg updatedEsc))

/-- `generate_svg(stats, theme)`: the whole renderer. -/
def generate_svg (stats : Stats) (theme : Theme) : String :=
  let c := themeColors theme
  let display_name := displayName stats
  let ldata := left_column_data stats.username display_name c.text c.comment
  let rdata := right_column_data c.text
  let info_lines_svg := String.intercalate "\n        "
    (leftLinesFrom 50 0 ldata ++ rightLinesFrom 480 0 rdata)
  let column_end_y := 100 + (max ldata.length rdata.length) * 24
  let chart := chartSection c.bg c.chart column_end_y
    stats.language_percentages
  let proj := projSection chart.2 stats.top_repos
  let footer_y := proj.2 + 40
  let total_height := footer_y + 60
  svgDoc c total_height footer_y (htmlEscape display_name) info_lines_svg
    (String.intercalate "\n    " chart.1)
    (String.intercalate "\n    " proj.1)
    (htmlEscape stats.updated_at)

/-! ## `update_readme_cache_busting`

`re.sub(r'dark_mode\.svg(\?v=[^"]+)?', 'dark_mode.svg?v=' + ts, content)`
followed by the same for `light_mode.svg`, modelled as the equivalent
left-to-right scan: at each position, the pattern matches iff the literal
filename is a prefix there; the optional group then greedily consumes
`?v=` plus the maximal nonempty run of non-quote characters.  The file
I/O around the substitution is dropped: the function maps old document
text to new document text. -/

/-- Greedy optional group `(\?v=[^"]+)?` applied at the position right
after a filename match: returns the rest of the input after the whole
match. -/
def vParamTail (cs : List Char) : List Char :=
  match cs with
  | '?' :: 'v' :: '=' :: tail =>
    if (tail.takeWhile (fun c => decide (c ≠ '"'))).isEmpty then cs
    else tail.dropWhile (fun c => decide (c ≠ '"'))
  | _ => cs

/-- The `re.sub` scan for one filename pattern: leftmost, non-overlapping
matches, replacement not rescanned, continuing after each match.  The `fuel`
argument only makes the recursion structural: every step consumes at least
one input character, so with `fuel` initialised to the input length the
`fuel = 0` fallback is unreachable. -/
def reSubGo (fn repl : List Char) : Nat → List Char → List Char
  | _, [] => []
  | 0, cs => cs
  | fuel + 1, c :: rest =>
    match fn with
    | [] => c :: rest
    | f0 :: ftail =>
      if (f0 :: ftail).isPrefixOf (c :: rest) then
        repl ++ reSubGo (f0 :: ftail) repl fuel
          (vParamTail ((c :: rest).drop (f0 :: ftail).length))
      else c :: reSubGo (f0 :: ftail) repl fuel rest

/-- One `re.sub(filename-pattern, filename?v=ts, content)` call. -/
def reSubSvg (fname ts content : String) : String :=
  String.mk
    (reSubGo fname.data (fname ++ "?v=" ++ ts).data content.data.length
      content.data)

/-- `update_readme_cache_busting`: rewrites the two image references with a
fresh cache-busting parameter (dark first, then light, as in the source). -/
def update_readme_cache_busting (ts content : String) : String :=
  reSubSvg "light_mode.svg" ts (reSubSvg "dark_mode.svg" ts content)

/-! ## Escaped view of the renderer input

`generate_svg` inserts user-controlled strings only after passing them
through `html.escape`; `escapeView` collects exactly those escaped images
(plus the numeric star counts and percentages, which are not strings).
The renderer factors through this view. -/

/-- The escaped image of one `top_repos` entry as the renderer inserts it:
escaped name, escaped truncated description, escaped language, raw star
count. -/
def escRepoView (r : RepoData) : String × String × String × Nat :=
  (htmlEscape r.name,
   htmlEscape (if 70 < r.description.length then r.description.take 70 ++ "..."
     else r.description),
   htmlEscape r.language,
   r.stars)

/-- Everything of a `Stats` record that can reach the rendered document:
the escaped display name, the language rows with escaped names, the escaped
views of the at most three rendered repositories, and the escaped
timestamp. -/
def escapeView (stats : Stats) :
    String × List (String × ℚ) × List (String × String × String × Nat) ×
      String :=
  (htmlEscape (displayName stats),
   stats.language_percentages.map (fun p => (htmlEscape p.1, p.2)),
   (stats.top_repos.take 3).map escRepoView,
   htmlEscape stats.updated_at)

/-! ## Concrete fixtures used by the witness theorems -/

/-- A minimal repository entry. -/
def exRepo : RepoEntry :=
  { name := "r", description := none, stargazers_count := 0,
    language := none, fork := false, languages_url := "u" }

/-- A page oracle returning pages of 100, 100, 37, then empty. -/
def pagesEx : Nat → Nat → List RepoEntry := fun _ page =>
  if page = 1 then List.replicate 100 exRepo
  else if page = 2 then List.replicate 100 exRepo
  else if page = 3 then List.replicate 37 exRepo
  else []

/-- A non-fork repository with a known language endpoint. -/
def repoA : RepoEntry :=
  { name := "a", description := some "first", stargazers_count := 5,
    language := some "Go", fork := false, languages_url := "urlA" }

/-- A second non-fork repository with the same star count as `repoA`. -/
def repoB : RepoEntry :=
  { name := "b", description := none, stargazers_count := 5,
    language := some "Go", fork := false, languages_url := "urlB" }

/-- A fork with a high star count. -/
def repoF : RepoEntry :=
  { name := "f", description := some "fork", stargazers_count := 100,
    language := some "Go", fork := true, languages_url := "urlF" }

/-- A language oracle knowing only `repoA`'s endpoint. -/
def lfEx : String → Option (List (String × Nat)) := fun u =>
  if u = "urlA" then some [("Go", 1000)] else none

/-- A concrete aggregated-statistics record. -/
def exStats : Stats :=
  { username := "kholcomb", name := some "Kyle", bio := some "hi",
    followers := 10, following := 5, public_repos := 2, total_stars := 5,
    language_percentages := [("Go", 100)],
    top_repos := [{ name := "a", description := "first", stars := 5,
                    language := "Go" }],
    updated_at := "January 01, 2024 at 12:00 AM UTC" }

/-- A profile payload whose display name is JSON `null` and whose required
count fields are all present. -/
def udNullName : UserDataJson :=
  { name := .null, bio := .null, followers := some 10, following := some 5,
    public_repos := some 2 }

/-- A profile payload lacking the `followers` field. -/
def udNoFollowers : UserDataJson :=
  { name := .str "Kyle", bio := .absent, followers := none,
    following := some 5, public_repos := some 2 }

/-- The statistics record `calculate_stats` produces from `udNullName` with
an empty repository list. -/
def statsNull : Stats :=
  { username := "alice", name := none, bio := none, followers := 10,
    following := 5, public_repos := 2, total_stars := 0,
    language_percentages := [], top_repos := [], updated_at := "ts" }

/-- A concrete language-byte dictionary (already in descending byte order,
so the stable sort leaves it unchanged). -/
def lbEx : List (String × Nat) := [("C", 3000), ("Go", 1000)]

/-- A profile payload with a non-empty display name. -/
def udKyle : UserDataJson :=
  { name := .str "Kyle", bio := .null, followers := some 10,
    following := some 5, public_repos := some 2 }

/-- The statistics record `calculate_stats` produces from `udKyle` with an
empty repository list. -/
def statsKyle : Stats :=
  { username := "alice", name := some "Kyle", bio := none, followers := 10,
    following := 5, public_repos := 2, total_stars := 0,
    language_percentages := [], top_repos := [], updated_at := "ts" }


/-! # Theorems

First the helper lemmas shared by several claims, then one theorem per
claim of the specification review (with a closed witness instance for each
theorem that carries hypotheses). -/

theorem ne_nil_isEmpty_false {α : Type} (l : List α) (h : l.length ≠ 0) :
    l.isEmpty = false := by
  cases l with
  | nil => simp at h
  | cons a t => simp

theorem escChar_data_ne_nil (c : Char) : (escChar c).data ≠ [] := by
  unfold escChar
  split
  · decide
  · split
    · decide
    · split
      · decide
      · split
        · decide
        · split
          · decide
          · simp

theorem htmlEscape_eq_empty_iff (s : String) : htmlEscape s = "" ↔ s = "" := by
  constructor
  · intro h
    have hd : (s.data.flatMap (fun c => (escChar c).data)) = [] := by
      have := congrArg String.data h
      simpa [htmlEscape] using this
    rw [List.flatMap_eq_nil_iff] at hd
    cases hs : s.data with
    | nil =>
      cases s with
      | mk d => simp_all
    | cons c t =>
      exact absurd (hd c (by rw [hs]; exact List.mem_cons_self c t))
        (escChar_data_ne_nil c)
  · intro h
    rw [h]
    rfl

theorem escChar_no_angle (c : Char) :
    '<' ∉ (escChar c).data ∧ '>' ∉ (escChar c).data := by
  unfold escChar
  split
  · decide
  · split
    · decide
    · split
      · decide
      · split
        · decide
        · split
          · decide
          · rename_i h1 h2 h3 h4 h5
            constructor
            · simp
              intro hc
              exact h2 hc.symm
            · simp
              intro hc
              exact h3 hc.symm

theorem htmlEscape_no_angle (s : String) :
    '<' ∉ (htmlEscape s).data ∧ '>' ∉ (htmlEscape s).data := by
  constructor
  · intro h
    simp only [htmlEscape, List.mem_flatMap] at h
    obtain ⟨c, _, hc⟩ := h
    exact (escChar_no_angle c).1 hc
  · intro h
    simp only [htmlEscape, List.mem_flatMap] at h
    obtain ⟨c, _, hc⟩ := h
    exact (escChar_no_angle c).2 hc

theorem htmlEscape_empty_bicond {a b : String}
    (h : htmlEscape a = htmlEscape b) : (a = "") ↔ (b = "") := by
  constructor
  · intro ha
    rw [← htmlEscape_eq_empty_iff] at ha ⊢
    rw [← h]
    exact ha
  · intro hb
    rw [← htmlEscape_eq_empty_iff] at hb ⊢
    rw [h]
    exact hb

/-- If two display names have the same escaped image, the rendered left column is identical (the handle itself is dropped by the `custom_color` branch and never reaches the output). -/
theorem leftLines_congr (u1 u2 dn1 dn2 tc cc : String) (htc : tc ≠ "")
    (h : htmlEscape dn1 = htmlEscape dn2) :
    leftLinesFrom 50 0 (left_column_data u1 dn1 tc cc) =
      leftLinesFrom 50 0 (left_column_data u2 dn2 tc cc) := by
  have hiff := htmlEscape_empty_bicond h
  by_cases hd : dn1 = ""
  · have hd2 : dn2 = "" := hiff.mp hd
    simp [left_column_data, leftLinesFrom, pyTruthy, htc, hd, hd2, h]
  · have hd2 : dn2 ≠ "" := fun hh => hd (hiff.mpr hh)
    simp [left_column_data, leftLinesFrom, pyTruthy, htc, hd, hd2, h]

theorem barsFrom_congr (bg : String) (cols : List String) (sY : Nat) :
    ∀ (i : Nat) (l1 l2 : List (String × ℚ)),
      l1.map (fun p => (htmlEscape p.1, p.2)) =
        l2.map (fun p => (htmlEscape p.1, p.2)) →
      barsFrom bg cols sY i l1 = barsFrom bg cols sY i l2 := by
  intro i l1
  induction l1 generalizing i with
  | nil =>
    intro l2 h
    have : l2 = [] := by
      cases l2 with
      | nil => rfl
      | cons b t => simp at h
    rw [this]
  | cons a t ih =>
    intro l2 h
    cases l2 with
    | nil => simp at h
    | cons b t2 =>
      simp only [List.map_cons, List.cons.injEq, Prod.mk.injEq] at h
      obtain ⟨⟨hname, hpct⟩, htail⟩ := h
      simp only [barsFrom]
      rw [ih (i + 1) t2 htail]
      congr 1
      simp only [barLines]
      rw [hname, hpct]

theorem chartSection_congr (bg : String) (cols : List String) (cey : Nat)
    (l1 l2 : List (String × ℚ))
    (h : l1.map (fun p => (htmlEscape p.1, p.2)) =
      l2.map (fun p => (htmlEscape p.1, p.2))) :
    chartSection bg cols cey l1 = chartSection bg cols cey l2 := by
  have hlen : l1.length = l2.length := by
    have := congrArg List.length h
    simpa using this
  have hb := barsFrom_congr bg cols (cey + 40 + 55) 0 l1 l2 h
  cases l1 with
  | nil =>
    cases l2 with
    | nil => rfl
    | cons b t2 => simp at hlen
  | cons a t =>
    cases l2 with
    | nil => simp at hlen
    | cons b t2 => simp [chartSection, hb, hlen]

theorem projEntryLines_congr (pY i : Nat) (r1 r2 : RepoData)
    (h : escRepoView r1 = escRepoView r2) :
    projEntryLines pY i r1 = projEntryLines pY i r2 := by
  simp only [escRepoView, Prod.mk.injEq] at h
  obtain ⟨hn, hd, hl, hs⟩ := h
  simp only [projEntryLines]
  rw [hn, hd, hl, hs]

theorem projsFrom_congr (pY : Nat) :
    ∀ (i : Nat) (l1 l2 : List RepoData),
      l1.map escRepoView = l2.map escRepoView →
      projsFrom pY i l1 = projsFrom pY i l2 := by
  intro i l1
  induction l1 generalizing i with
  | nil =>
    intro l2 h
    cases l2 with
    | nil => rfl
    | cons b t => simp at h
  | cons a t ih =>
    intro l2 h
    cases l2 with
    | nil => simp at h
    | cons b t2 =>
      simp only [List.map_cons, List.cons.injEq] at h
      obtain ⟨hh, htail⟩ := h
      simp only [projsFrom]
      rw [projEntryLines_congr pY i a b hh, ih (i + 1) t2 htail]

theorem projSection_congr (cey : Nat) (l1 l2 : List RepoData)
    (h : (l1.take 3).map escRepoView = (l2.take 3).map escRepoView) :
    projSection cey l1 = projSection cey l2 := by
  have hlen : (l1.take 3).length = (l2.take 3).length := by
    have := congrArg List.length h
    simpa using this
  have hp := projsFrom_congr (cey + 40 + 55) 0 (l1.take 3) (l2.take 3) h
  cases l1 with
  | nil =>
    cases l2 with
    | nil => rfl
    | cons b t2 => simp at hlen
  | cons a t =>
    cases l2 with
    | nil => simp at hlen
    | cons b t2 =>
      have hp2 : projsFrom (cey + 40 + 55) 0 (a :: t.take 2) =
          projsFrom (cey + 40 + 55) 0 (b :: t2.take 2) := by
        simpa using hp
      have hlen2 : 2 ⊓ t.length = 2 ⊓ t2.length := by
        simpa using hlen
      simp [projSection, hp2, hlen2]

theorem left_column_data_length (u dn tc cc : String) :
    (left_column_data u dn tc cc).length = 23 := by
  simp [left_column_data]

/-- The renderer factors through `escapeView`: the output depends on the stats record only through the escaped images of its user-controlled strings (plus the numeric fields inside the view). -/
theorem generate_svg_congr (s1 s2 : Stats) (t : Theme)
    (h : escapeView s1 = escapeView s2) :
    generate_svg s1 t = generate_svg s2 t := by
  simp only [escapeView, Prod.mk.injEq] at h
  obtain ⟨hdn, h2, h3, h4⟩ := h
  have hl : ∀ tc cc,
      (left_column_data s1.username (displayName s1) tc cc).length =
        (left_column_data s2.username (displayName s2) tc cc).length := by
    intro tc cc
    simp [left_column_data]
  cases t
  · simp only [generate_svg, themeColors]
    rw [leftLines_congr s1.username s2.username (displayName s1)
      (displayName s2) "#657b83" "#93a1a1" (by decide) hdn]
    rw [hl "#657b83" "#93a1a1"]
    rw [chartSection_congr _ _ _ _ _ h2]
    rw [projSection_congr _ _ _ h3]
    rw [hdn, h4]
  · simp only [generate_svg, themeColors]
    rw [leftLines_congr s1.username s2.username (displayName s1)
      (displayName s2) "#839496" "#586e75" (by decide) hdn]
    rw [hl "#839496" "#586e75"]
    rw [chartSection_congr _ _ _ _ _ h2]
    rw [projSection_congr _ _ _ h3]
    rw [hdn, h4]

theorem flsGo_skips_fork (lf : String → Option (List (String × Nat)))
    (r : RepoEntry) (hr : r.fork = true) :
    ∀ (l1 l2 : List RepoEntry) (acc : List (String × Nat))
      (urls : List String),
      fetchLanguageStatsGo lf (l1 ++ r :: l2) acc urls =
        fetchLanguageStatsGo lf (l1 ++ l2) acc urls := by
  intro l1
  induction l1 with
  | nil =>
    intro l2 acc urls
    simp [fetchLanguageStatsGo, hr]
  | cons d tl ih =>
    intro l2 acc urls
    simp only [List.cons_append, fetchLanguageStatsGo]
    by_cases hd : d.fork
    · simp [hd, ih]
    · simp only [hd]
      simp only [Bool.false_eq_true, if_false]
      cases lf d.languages_url with
      | none => simp [ih]
      | some langData => simp [ih]

theorem repoLe_trans : ∀ a b c : RepoEntry,
    repoLe a b → repoLe b c → repoLe a c := by
  intro a b c hab hbc
  simp only [repoLe, decide_eq_true_eq] at *
  omega

theorem repoLe_total : ∀ a b : RepoEntry, repoLe a b || repoLe b a := by
  intro a b
  simp only [repoLe, Bool.or_eq_true, decide_eq_true_eq]
  omega

/-- Stability of the star sort: the repositories with any fixed star count appear in the sorted list exactly in their original order. -/
theorem filter_stars_mergeSort (l : List RepoEntry) (s : Nat) :
    (l.mergeSort repoLe).filter (fun r => r.stargazers_count = s) =
      l.filter (fun r => r.stargazers_count = s) := by
  have hpw : (l.filter (fun r => r.stargazers_count = s)).Pairwise
      (fun a b => repoLe a b = true) := by
    apply List.pairwise_of_forall_mem_list
    intro a ha b hb
    rw [List.mem_filter] at ha hb
    simp only [decide_eq_true_eq] at ha hb
    simp only [repoLe, decide_eq_true_eq]
    omega
  have hsub : List.Sublist (l.filter (fun r => r.stargazers_count = s))
      (l.mergeSort repoLe) :=
    List.sublist_mergeSort repoLe_trans repoLe_total hpw
      (List.filter_sublist l)
  have hsub2 : List.Sublist (l.filter (fun r => r.stargazers_count = s))
      ((l.mergeSort repoLe).filter (fun r => r.stargazers_count = s)) := by
    have := hsub.filter (fun r => decide (r.stargazers_count = s))
    rwa [List.filter_filter, show
      (fun r : RepoEntry => decide (r.stargazers_count = s) &&
        decide (r.stargazers_count = s)) =
      (fun r : RepoEntry => decide (r.stargazers_count = s)) from
        funext (fun r => by cases decide (r.stargazers_count = s) <;> rfl)]
      at this
  have hlen : ((l.mergeSort repoLe).filter
        (fun r => r.stargazers_count = s)).length =
      (l.filter (fun r => r.stargazers_count = s)).length := by
    exact ((l.mergeSort_perm repoLe).filter _).length_eq
  exact (hsub2.eq_of_length hlen.symm).symm

theorem bytesLe_trans : ∀ a b c : String × Nat,
    bytesLe a b → bytesLe b c → bytesLe a c := by
  intro a b c hab hbc
  simp only [bytesLe, decide_eq_true_eq] at *
  omega

theorem bytesLe_total : ∀ a b : String × Nat, bytesLe a b || bytesLe b a := by
  intro a b
  simp only [bytesLe, Bool.or_eq_true, decide_eq_true_eq]
  omega

theorem perc_sum_eq (l : List (String × Nat)) (t : ℚ) :
    ((l.map (fun p => (p.1, (p.2 : ℚ) / t * 100))).map
        (fun x => x.2)).sum =
      (((l.map (fun p => p.2)).sum : ℕ) : ℚ) / t * 100 := by
  induction l with
  | nil => simp
  | cons a tl ih =>
    simp only [List.map_cons, List.sum_cons, ih]
    push_cast
    rw [add_div, add_mul]

theorem bytes_take_le (lb : List (String × Nat)) :
    ((((lb.mergeSort bytesLe).take 5).map (fun p => p.2)).sum) ≤
      totalBytesOf lb := by
  have h1 : List.Sublist (((lb.mergeSort bytesLe).take 5).map
      (fun p => p.2)) ((lb.mergeSort bytesLe).map (fun p => p.2)) :=
    (List.take_sublist 5 _).map _
  have h2 := h1.sum_le_sum (by intro a _; exact Nat.zero_le a)
  have h3 : ((lb.mergeSort bytesLe).map (fun p => p.2)).sum =
      totalBytesOf lb := by
    unfold totalBytesOf
    exact ((lb.mergeSort_perm bytesLe).map (fun p => p.2)).sum_eq
  omega

theorem displayName_of_falsy (s : Stats)
    (h : s.name = none ∨ s.name = some "") : displayName s = s.username := by
  rcases h with h | h <;> simp [displayName, h]

theorem displayName_some_username (s : Stats) :
    displayName { s with name := some s.username } = s.username := by
  simp [displayName]

/-- C1: inserting a fork anywhere into the repository list changes neither the total star count, nor the top-3 selection, nor the language-byte aggregation — including the list of requested language endpoints, so the fork's endpoint is never fetched — regardless of the fork's stars or languages. -/
theorem fork_contributes_nothing
    (lf : String → Option (List (String × Nat)))
    (l1 l2 : List RepoEntry) (r : RepoEntry) (hr : r.fork = true) :
    totalStars (l1 ++ r :: l2) = totalStars (l1 ++ l2) ∧
    top_repos_of (l1 ++ r :: l2) = top_repos_of (l1 ++ l2) ∧
    fetch_language_stats lf (l1 ++ r :: l2) =
      fetch_language_stats lf (l1 ++ l2) := by
  refine ⟨?_, ?_, ?_⟩
  · simp [totalStars, List.filter_append, List.filter_cons, hr]
  · simp [top_repos_of, List.filter_append, List.filter_cons, hr]
  · exact flsGo_skips_fork lf r hr l1 l2 [] []

theorem fork_contributes_nothing_witness :
    totalStars [repoA, repoF] = totalStars [repoA] ∧
    top_repos_of [repoA, repoF] = top_repos_of [repoA] ∧
    fetch_language_stats lfEx [repoA, repoF] =
      fetch_language_stats lfEx [repoA] :=
  fork_contributes_nothing lfEx [repoA] [] repoF rfl

/-- C2: the rendered document depends on the user-controlled string fields (display name, repository names, descriptions, language names) only through their `html.escape` images, the escaped image of any string contains no angle brackets, and a `<script>` payload escapes to `&lt;script&gt;` — so such a payload can only appear escaped, never as raw markup. -/
theorem user_fields_escaped :
    (∀ (s1 s2 : Stats) (t : Theme), escapeView s1 = escapeView s2 →
      generate_svg s1 t = generate_svg s2 t) ∧
    (∀ s : String, '<' ∉ (htmlEscape s).data ∧ '>' ∉ (htmlEscape s).data) ∧
    htmlEscape "<script>" = "&lt;script&gt;" := by
  refine ⟨generate_svg_congr, htmlEscape_no_angle, ?_⟩
  decide

theorem user_fields_escaped_witness :
    generate_svg exStats Theme.dark = generate_svg exStats Theme.dark ∧
    '<' ∉ (htmlEscape "<script>").data :=
  ⟨user_fields_escaped.1 exStats exStats Theme.dark rfl,
   (user_fields_escaped.2.1 "<script>").1⟩

/-- C3: with zero total bytes no percentage is produced (and the division guard avoids any fault); with positive total bytes every retained top-5 percentage equals its language's byte count divided by the total over all languages times 100, and the retained percentages sum to at most 100. -/
theorem percentages_correct (lb : List (String × Nat)) :
    (totalBytesOf lb = 0 → languagePercentages lb = []) ∧
    (0 < totalBytesOf lb → ∀ x ∈ languagePercentages lb,
      ∃ b : Nat, (x.1, b) ∈ lb ∧
        x.2 = (b : ℚ) / (totalBytesOf lb : ℚ) * 100) ∧
    ((languagePercentages lb).map (fun x => x.2)).sum ≤ 100 := by
  refine ⟨?_, ?_, ?_⟩
  · intro h
    simp [languagePercentages, h]
  · intro htot x hx
    simp only [languagePercentages] at hx
    split at hx
    · rw [List.mem_map] at hx
      obtain ⟨p, hp, hpx⟩ := hx
      refine ⟨p.2, ?_, ?_⟩
      · have hmem : p ∈ lb.mergeSort bytesLe :=
          (List.take_sublist 5 _).mem hp
        rw [List.mem_mergeSort] at hmem
        rw [← hpx]
        exact hmem
      · rw [← hpx]
    · omega
  · by_cases h : 0 < totalBytesOf lb
    · simp only [languagePercentages, if_pos h]
      rw [perc_sum_eq]
      have hb := bytes_take_le lb
      have ht : (0 : ℚ) < (totalBytesOf lb : ℚ) := by exact_mod_cast h
      have hle : ((totalBytesOf lb : ℚ))⁻¹ *
          ((((lb.mergeSort bytesLe).take 5).map
            (fun p => p.2)).sum : ℕ) ≤ 1 := by
        rw [inv_mul_le_iff₀ ht, mul_one]
        exact_mod_cast hb
      have h2 : ((((lb.mergeSort bytesLe).take 5).map
          (fun p => p.2)).sum : ℕ) / (totalBytesOf lb : ℚ) ≤ 1 := by
        rw [div_eq_inv_mul]
        exact hle
      have h3 := mul_le_mul_of_nonneg_right h2
        (by norm_num : (0 : ℚ) ≤ 100)
      simpa using h3
    · simp only [languagePercentages, if_neg h]
      simp

theorem percentages_correct_witness :
    ∃ b : Nat, ((("C" : String), (75 : ℚ)).1, b) ∈ lbEx ∧
      ((("C" : String), (75 : ℚ))).2 =
        (b : ℚ) / (totalBytesOf lbEx : ℚ) * 100 :=
  (percentages_correct lbEx).2.1 (by decide) (("C", 75)) (by
    have hsort : lbEx.mergeSort bytesLe = lbEx :=
      List.mergeSort_of_sorted (by decide)
    simp only [languagePercentages, hsort]
    norm_num [totalBytesOf, lbEx])

/-- C4: the pagination loop requests pages of 100 starting at page 1 and stops at the first empty page; on a source with pages of 100, 100, 37, then empty it issues exactly the four requests `(per_page=100, page=1..4)` and accumulates exactly 237 entries in request order. -/
theorem fetch_repos_pages_100_100_37_empty
    (fetchPage : Nat → Nat → List RepoEntry) (fuel : Nat)
    (h1 : (fetchPage 100 1).length = 100)
    (h2 : (fetchPage 100 2).length = 100)
    (h3 : (fetchPage 100 3).length = 37)
    (h4 : fetchPage 100 4 = [])
    (hfuel : 4 ≤ fuel) :
    fetch_repos fetchPage fuel =
      some (fetchPage 100 1 ++ fetchPage 100 2 ++ fetchPage 100 3,
        [(100, 1), (100, 2), (100, 3), (100, 4)]) ∧
    (fetchPage 100 1 ++ fetchPage 100 2 ++ fetchPage 100 3).length = 237 := by
  obtain ⟨k, rfl⟩ : ∃ k, fuel = k + 1 + 1 + 1 + 1 := ⟨fuel - 4, by omega⟩
  have e1 : (fetchPage 100 1).isEmpty = false :=
    ne_nil_isEmpty_false _ (by omega)
  have e2 : (fetchPage 100 2).isEmpty = false :=
    ne_nil_isEmpty_false _ (by omega)
  have e3 : (fetchPage 100 3).isEmpty = false :=
    ne_nil_isEmpty_false _ (by omega)
  constructor
  · simp [fetch_repos, fetchReposGo, e1, e2, e3, h4]
  · simp [h1, h2, h3]

theorem fetch_repos_pages_witness :
    fetch_repos pagesEx 10 =
      some (pagesEx 100 1 ++ pagesEx 100 2 ++ pagesEx 100 3,
        [(100, 1), (100, 2), (100, 3), (100, 4)]) ∧
    (pagesEx 100 1 ++ pagesEx 100 2 ++ pagesEx 100 3).length = 237 :=
  fetch_repos_pages_100_100_37_empty pagesEx 10 (by simp [pagesEx])
    (by simp [pagesEx]) (by simp [pagesEx]) (by simp [pagesEx])
    (by omega)

/-- C5: the top-repositories selection is the first 3 of a stable descending sort by stars of the non-fork repositories: it is deterministic in the input, the selection is sorted descending, and the selected repositories of any fixed star count appear in their original listing order. -/
theorem top_repos_stable (repos repos2 : List RepoEntry)
    (h : repos = repos2) :
    top_repos_of repos = top_repos_of repos2 ∧
    (top_repos_of repos).Pairwise
      (fun a b => b.stargazers_count ≤ a.stargazers_count) ∧
    ∀ s : Nat,
      List.Sublist
        ((top_repos_of repos).filter (fun r => r.stargazers_count = s))
        ((repos.filter (fun r => !r.fork)).filter
          (fun r => r.stargazers_count = s)) := by
  refine ⟨by rw [h], ?_, ?_⟩
  · have hs := List.sorted_mergeSort repoLe_trans repoLe_total
      (repos.filter (fun r => !r.fork))
    have := (hs.sublist (List.take_sublist 3 _)).imp
      (fun hab => by simpa [repoLe] using hab)
    exact this
  · intro s
    have h1 : List.Sublist
        ((top_repos_of repos).filter (fun r => r.stargazers_count = s))
        (((repos.filter (fun r => !r.fork)).mergeSort repoLe).filter
          (fun r => r.stargazers_count = s)) :=
      (List.take_sublist 3 _).filter _
    rw [filter_stars_mergeSort] at h1
    exact h1

theorem top_repos_stable_witness :
    top_repos_of [repoA, repoB, repoF] = top_repos_of [repoA, repoB, repoF] ∧
    (top_repos_of [repoA, repoB, repoF]).Pairwise
      (fun a b => b.stargazers_count ≤ a.stargazers_count) ∧
    List.Sublist
      ((top_repos_of [repoA, repoB, repoF]).filter
        (fun r => r.stargazers_count = 5))
      (([repoA, repoB, repoF].filter (fun r => !r.fork)).filter
        (fun r => r.stargazers_count = 5)) :=
  ⟨(top_repos_stable [repoA, repoB, repoF] [repoA, repoB, repoF] rfl).1,
   (top_repos_stable [repoA, repoB, repoF] [repoA, repoB, repoF] rfl).2.1,
   (top_repos_stable [repoA, repoB, repoF] [repoA, repoB, repoF] rfl).2.2 5⟩

/-- C6: the renderer is a pure function — byte-identical stats records and the same theme give byte-identical documents (the embedding is a total function with no effects, so equality of inputs yields equality of outputs). -/
theorem render_deterministic (s1 s2 : Stats) (theme : Theme) (h : s1 = s2) :
    generate_svg s1 theme = generate_svg s2 theme := by
  rw [h]

theorem render_deterministic_witness :
    generate_svg exStats Theme.light = generate_svg exStats Theme.light :=
  render_deterministic exStats exStats Theme.light rfl

/-- C7 counterexample: the regex group `(\?v=[^"]+)?` is greedy up to the
next double quote, so in `... light_mode.svg?v=old c` the replacement
swallows the following ` c`: the rewrite does alter other text, refuting the
claim as stated. -/
theorem cache_busting_greedy_counterexample :
    update_readme_cache_busting "2024-01-01-0000"
        "a dark_mode.svg b light_mode.svg?v=old c" =
      "a dark_mode.svg?v=2024-01-01-0000 b light_mode.svg?v=2024-01-01-0000" ∧
    update_readme_cache_busting "2024-01-01-0000"
        "a dark_mode.svg b light_mode.svg?v=old c" ≠
      "a dark_mode.svg?v=2024-01-01-0000 b light_mode.svg?v=2024-01-01-0000 c" :=
  ⟨by decide, by decide⟩

/-- C7 amended: when every `?v=` value is terminated by a double quote (as
in the README's `src="..."` attributes), both the bare `dark_mode.svg` and
the already-suffixed `light_mode.svg?v=old` are rewritten to carry
`?v=2024-01-01-0000` and no other text is altered. -/
theorem cache_busting_quote_terminated :
    update_readme_cache_busting "2024-01-01-0000"
        "<img src=\"dark_mode.svg\"> <img src=\"light_mode.svg?v=old\"> end" =
      "<img src=\"dark_mode.svg?v=2024-01-01-0000\"> <img src=\"light_mode.svg?v=2024-01-01-0000\"> end" := by
  decide

/-- C8: if the otherwise-successful profile payload lacks the follower-count field, the aggregation fails with the data-shape error (the `KeyError` of `user_data['followers']`): no stats record is produced. -/
theorem missing_followers_fatal (username : String) (ud : UserDataJson)
    (repos : List RepoEntry) (lf : String → Option (List (String × Nat)))
    (now : String) (h : ud.followers = none) :
    calculate_stats username ud repos lf now =
      .error (.dataShape "followers") := by
  simp [calculate_stats, h]

theorem missing_followers_fatal_witness :
    calculate_stats "kholcomb" udNoFollowers [] lfEx "ts" =
      .error (.dataShape "followers") :=
  missing_followers_fatal "kholcomb" udNoFollowers [] lfEx "ts" rfl

/-- Every rendered document carries the escaped display name in the title
line, followed by the literal `'s GitHub Profile`; the decomposition is
definitional in the grouped template. -/
theorem generate_svg_title (stats : Stats) (theme : Theme) :
    ∃ pre suf, generate_svg stats theme =
      pre ++ (htmlEscape (displayName stats) ++
        ("\x27s GitHub Profile</text>" ++ suf)) :=
  ⟨_, _, rfl⟩

/-- C9: for every successfully aggregated profile, (1) if the fetched
display-name field is absent, JSON null, or the empty string, the display
name used is the account handle and the rendered document is identical to
the one rendered with the display name set to the handle — the handle is
substituted everywhere the display name appears; (2) otherwise (a non-empty
name string) the display name used is that name, and the document does not
depend on the handle at all (so the handle is not substituted); and (3) the
escaped display value appears in the document title. -/
theorem name_fallback (username now : String) (ud : UserDataJson)
    (repos : List RepoEntry) (lf : String → Option (List (String × Nat)))
    (theme : Theme) (stats : Stats)
    (hok : calculate_stats username ud repos lf now = .ok stats) :
    ((ud.name = .absent ∨ ud.name = .null ∨ ud.name = .str "") →
      displayName stats = stats.username ∧
      generate_svg stats theme =
        generate_svg { stats with name := some stats.username } theme) ∧
    (∀ s : String, ud.name = .str s → s ≠ "" →
      displayName stats = s ∧
      ∀ u2 : String, generate_svg stats theme =
        generate_svg { stats with username := u2 } theme) ∧
    (∃ pre suf, generate_svg stats theme =
      pre ++ (htmlEscape (displayName stats) ++
        ("\x27s GitHub Profile</text>" ++ suf))) := by
  obtain ⟨nm, bio, fl, fg, pr⟩ := ud
  cases fl with
  | none => simp [calculate_stats] at hok
  | some fw =>
    cases fg with
    | none => simp [calculate_stats] at hok
    | some fgv =>
      cases pr with
      | none => simp [calculate_stats] at hok
      | some prv =>
        simp only [calculate_stats, Except.ok.injEq] at hok
        subst hok
        refine ⟨?_, ?_, generate_svg_title _ _⟩
        · intro hname
          constructor
          · rcases hname with h | h | h <;> subst h <;>
              simp [displayName]
          · apply generate_svg_congr
            rcases hname with h | h | h <;> subst h <;>
              simp [escapeView, displayName]
        · intro s hs hne
          subst hs
          constructor
          · simp [displayName, hne]
          · intro u2
            apply generate_svg_congr
            simp [escapeView, displayName, hne]

theorem name_fallback_witness :
    (displayName statsNull = statsNull.username ∧
      generate_svg statsNull Theme.light =
        generate_svg { statsNull with name := some statsNull.username }
          Theme.light) ∧
    (displayName statsKyle = "Kyle" ∧
      generate_svg statsKyle Theme.light =
        generate_svg { statsKyle with username := "bob" } Theme.light) :=
  ⟨(name_fallback "alice" "ts" udNullName [] (fun _ => none) Theme.light
      statsNull
      (by simp [calculate_stats, udNullName, statsNull, top_repos_of,
        fetch_language_stats, fetchLanguageStatsGo, languagePercentages,
        totalBytesOf, totalStars])).1 (Or.inr (Or.inl rfl)),
   ⟨((name_fallback "alice" "ts" udKyle [] (fun _ => none) Theme.light
        statsKyle
        (by simp [calculate_stats, udKyle, statsKyle, top_repos_of,
          fetch_language_stats, fetchLanguageStatsGo, languagePercentages,
          totalBytesOf, totalStars])).2.1 "Kyle" rfl (by decide)).1,
    ((name_fallback "alice" "ts" udKyle [] (fun _ => none) Theme.light
        statsKyle
        (by simp [calculate_stats, udKyle, statsKyle, top_repos_of,
          fetch_language_stats, fetchLanguageStatsGo, languagePercentages,
          totalBytesOf, totalStars])).2.1 "Kyle" rfl (by decide)).2 "bob"⟩⟩

/-- C10: the bio field never influences the rendered document — stats records differing only in bio render byte-identically for every theme. -/
theorem bio_never_rendered (s : Stats) (b1 b2 : Option String) (t : Theme) :
    generate_svg { s with bio := b1 } t = generate_svg { s with bio := b2 } t :=
  generate_svg_congr _ _ _ rfl

end Today
